import Mathlib

/-!
Verification development for the query-interpretation and time-scoped
analytics engine of the spotiboti repository (`spotify_data_query.py`).

The Python source is shallowly embedded: the event store is a `List Event`
(one element per listen row, in store order), pandas column operations
become list operations, and the regular-expression patterns of the intent
classifier are embedded via a small backtracking regex interpreter whose
semantics follows Python `re` (leftmost match, greedy/lazy quantifiers,
first-success DFS order, capture groups in paren order).
-/

namespace SDQ

/-- ASCII letter test, the semantics of the regex class `[a-zA-Z]`. -/
def isAsciiAlpha (c : Char) : Bool :=
  ('a' ≤ c && c ≤ 'z') || ('A' ≤ c && c ≤ 'Z')

/-- ASCII digit test, the semantics of the regex class `\d` on ASCII input. -/
def isAsciiDigit (c : Char) : Bool :=
  '0' ≤ c && c ≤ '9'

/-- Whitespace as Python `\s` / `str.strip` / `str.split` see it (ASCII part). -/
def isPySpace (c : Char) : Bool :=
  c == ' ' || c == '\t' || c == '\n' || c == '\r' || c == '\x0b' || c == '\x0c'

/-- Word character for the regex word-boundary `\b`. -/
def isWordChar (c : Char) : Bool :=
  isAsciiAlpha c || isAsciiDigit c || c == '_'

/-- Boolean prefix test on character lists. -/
def isPrefixB : List Char → List Char → Bool
  | [], _ => true
  | _ :: _, [] => false
  | a :: as, b :: bs => a == b && isPrefixB as bs

/-- Boolean infix (substring) test on character lists: Python `needle in hay`. -/
def isInfixB (needle : List Char) : List Char → Bool
  | [] => isPrefixB needle []
  | c :: rest => isPrefixB needle (c :: rest) || isInfixB needle rest

/-- Python substring test `needle in hay` on strings. -/
def substrB (needle hay : String) : Bool :=
  isInfixB needle.toList hay.toList

/-- Drop leading Python whitespace. -/
def dropLeadingWs : List Char → List Char
  | [] => []
  | c :: rest => if isPySpace c then dropLeadingWs rest else c :: rest

/-- Python `str.strip()`. -/
def pyStrip (s : String) : String :=
  String.mk ((dropLeadingWs (dropLeadingWs s.toList.reverse).reverse))

/-- Helper for `pySplit`: the accumulator holds the current word reversed. -/
def pySplitGo : List Char → List Char → List String
  | [], acc => if acc.isEmpty then [] else [String.mk acc.reverse]
  | c :: rest, acc =>
    if isPySpace c then
      if acc.isEmpty then pySplitGo rest []
      else String.mk acc.reverse :: pySplitGo rest []
    else pySplitGo rest (c :: acc)

/-- Python `str.split()` with no argument: split on whitespace runs, no empties. -/
def pySplit (s : String) : List String :=
  pySplitGo s.toList []

/-- Helper for `splitComma`. -/
def splitCommaGo : List Char → List Char → List String
  | [], acc => [String.mk acc.reverse]
  | c :: rest, acc =>
    if c == ',' then String.mk acc.reverse :: splitCommaGo rest []
    else splitCommaGo rest (c :: acc)

/-- Python `s.split(",")`: split at every comma, keeping empty pieces. -/
def splitComma (s : String) : List String :=
  splitCommaGo s.toList []

/-- Python `" ".join(ws)`. -/
def joinSpace : List String → String
  | [] => ""
  | [w] => w
  | w :: ws => w ++ " " ++ joinSpace ws

/-- Python `str.capitalize()`: first character upper-cased, the rest lowered. -/
def pyCapitalize (s : String) : String :=
  match s.toList with
  | [] => ""
  | c :: rest => String.mk (c.toUpper :: rest.map Char.toLower)

/-- Python `str.upper()`. -/
def pyUpper (s : String) : String :=
  String.mk (s.toList.map Char.toUpper)

/-- Helper for `pyTitle`: the Bool says whether the previous char was a letter. -/
def pyTitleGo : Bool → List Char → List Char
  | _, [] => []
  | prevAlpha, c :: cs =>
    if isAsciiAlpha c then
      (if prevAlpha then c.toLower else c.toUpper) :: pyTitleGo true cs
    else
      c :: pyTitleGo false cs

/-- Python `str.title()` (on the letters-and-spaces strings used here). -/
def pyTitle (s : String) : String :=
  String.mk (pyTitleGo false s.toList)

/-- Python `str.lower()`. -/
def pyLower (s : String) : String :=
  String.mk (s.toList.map Char.toLower)

/-- Python `int(s)` on a decimal-digit string. -/
def strToNat (s : String) : Nat :=
  s.toList.foldl (fun n c => n * 10 + (c.toNat - '0'.toNat)) 0

/-- First `some` value of `f` over a list, in order: models an early-`return`
or `break` out of a Python `for` loop. -/
def firstSome (f : α → Option β) : List α → Option β
  | [] => none
  | a :: as =>
    match f a with
    | some b => some b
    | none => firstSome f as

/-- Deduplicate keeping the first occurrence of each value, like the key order
of a Python dict / pandas hash table. -/
def dedupFirst [DecidableEq α] (l : List α) : List α :=
  l.foldl (fun acc x => if x ∈ acc then acc else acc ++ [x]) []

/-- Insert into an ascending list of naturals (used to model `sorted(...)`). -/
def insertNatAsc (n : Nat) : List Nat → List Nat
  | [] => [n]
  | m :: ms => if n ≤ m then n :: m :: ms else m :: insertNatAsc n ms

/-- Ascending insertion sort on naturals: `sorted(...)` over year values. -/
def sortNatAsc (l : List Nat) : List Nat :=
  l.foldr insertNatAsc []

/-!
## A small regex interpreter

Only the constructs appearing in `spotify_data_query.py` are supported:
character classes, sequencing, alternation (left first), greedy `*`/`+`/`?`,
lazy `+?` (via a lazy star), one-level capture groups, the word boundary
`\b` and the end anchor `$`.  Search is leftmost-first; at the match
position the first success of the depth-first backtracking order is taken,
exactly as Python `re.search` does.
-/

/-- Regex syntax. `cc` is a character class given by its predicate; `star` is
greedy, `lstar` lazy; `group` is a capture group. -/
inductive RE where
  | fail : RE
  | eps : RE
  | cc : (Char → Bool) → RE
  | seq : RE → RE → RE
  | alt : RE → RE → RE
  | star : RE → RE
  | lstar : RE → RE
  | opt : RE → RE
  | group : RE → RE
  | wordB : RE
  | eos : RE

/-- A backtracking state: captured groups so far (in paren order), the
previously consumed character (for `\b`), and the remaining input. -/
abbrev MState := List (List Char) × Option Char × List Char

/-- Combine two sequentially produced states: concatenate captures. -/
def mseq (a b : MState) : MState :=
  (a.1 ++ b.1, b.2.1, b.2.2)

/-- One layer of the matcher, structural on the regex; repetition re-enters
through `rec` (which carries the fuel in `mrun`).  The returned list holds
all ways to match a prefix, in Python's depth-first backtracking order. -/
def mrunGo (rec : RE → Option Char → List Char → List MState) :
    RE → Option Char → List Char → List MState
  | RE.fail, _, _ => []
  | RE.eps, prev, s => [([], prev, s)]
  | RE.cc p, _, s =>
    match s with
    | [] => []
    | c :: rest => if p c then [([], some c, rest)] else []
  | RE.seq r1 r2, prev, s =>
    (mrunGo rec r1 prev s).foldr
      (fun st acc => ((mrunGo rec r2 st.2.1 st.2.2).map (fun st2 => mseq st st2)) ++ acc) []
  | RE.alt r1 r2, prev, s => mrunGo rec r1 prev s ++ mrunGo rec r2 prev s
  | RE.star r, prev, s =>
    let firsts := (mrunGo rec r prev s).filter (fun st => st.2.2.length < s.length)
    (firsts.foldr
      (fun st acc => ((rec (RE.star r) st.2.1 st.2.2).map (fun st2 => mseq st st2)) ++ acc) [])
      ++ [([], prev, s)]
  | RE.lstar r, prev, s =>
    let firsts := (mrunGo rec r prev s).filter (fun st => st.2.2.length < s.length)
    ([], prev, s) ::
      firsts.foldr
        (fun st acc => ((rec (RE.lstar r) st.2.1 st.2.2).map (fun st2 => mseq st st2)) ++ acc) []
  | RE.opt r, prev, s => mrunGo rec r prev s ++ [([], prev, s)]
  | RE.group r, prev, s =>
    (mrunGo rec r prev s).map
      (fun st => ([s.take (s.length - st.2.2.length)], st.2.1, st.2.2))
  | RE.wordB, prev, s =>
    let pw := match prev with | some c => isWordChar c | none => false
    let nw := match s with | c :: _ => isWordChar c | [] => false
    if pw != nw then [([], prev, s)] else []
  | RE.eos, prev, s =>
    match s with
    | [] => [([], prev, s)]
    | _ :: _ => []

/-- Fuelled matcher; the fuel only bounds repetition unfoldings, and each
counted unfolding consumes at least one character, so `length + 2` fuel is
always enough. -/
def mrun : Nat → RE → Option Char → List Char → List MState
  | 0, _, _, _ => []
  | fuel + 1, r, prev, s => mrunGo (mrun fuel) r prev s

/-- Try to match at successive start positions (leftmost search), tracking the
previous character for `\b`; returns captures, last consumed char and rest. -/
def searchAux (r : RE) : Option Char → List Char → Option MState
  | prev, s =>
    match (mrun (s.length + 2) r prev s).head? with
    | some st => some st
    | none =>
      match s with
      | [] => none
      | c :: rest => searchAux r (some c) rest

/-- Python `re.search(pattern, s)` returning `group(1)` (`none` if no match). -/
def reSearch1 (r : RE) (s : String) : Option String :=
  match searchAux r none s.toList with
  | some st => some (String.mk (st.1.headD []))
  | none => none

/-- Python `re.findall(pattern, s)` for a single-group pattern: group-1 strings of
all non-overlapping occurrences, left to right. -/
def findAllAux : Nat → RE → Option Char → List Char → List (List Char)
  | 0, _, _, _ => []
  | fuel + 1, r, prev, s =>
    match searchAux r prev s with
    | none => []
    | some st =>
      if st.2.2.length < s.length then
        st.1.headD [] :: findAllAux fuel r st.2.1 st.2.2
      else
        [st.1.headD []]

/-- Python `re.findall` entry point. -/
def findAll1 (r : RE) (s : String) : List String :=
  (findAllAux (s.toList.length + 1) r none s.toList).map String.mk

/-- Single literal character. -/
def rchar (c : Char) : RE := RE.cc (fun x => x == c)

/-- Literal string. -/
def rstr (s : String) : RE :=
  s.toList.foldr (fun c acc => RE.seq (rchar c) acc) RE.eps

/-- Case-insensitive literal character (`c` given in lower case). -/
def rcharCI (c : Char) : RE := RE.cc (fun x => x.toLower == c)

/-- Alternation over a list, tried left to right. -/
def raltL (l : List RE) : RE := l.foldr RE.alt RE.fail

/-- Sequence over a list. -/
def rseqL (l : List RE) : RE := l.foldr RE.seq RE.eps

/-- Greedy `+`. -/
def rplus (r : RE) : RE := RE.seq r (RE.star r)

/-- Classes `[a-zA-Z]`, `\d`, `\s`. -/
def rAlpha : RE := RE.cc isAsciiAlpha

def rDigit : RE := RE.cc isAsciiDigit

def rSpace : RE := RE.cc isPySpace

/-- Pattern `\s+`. -/
def rspaces : RE := rplus rSpace

/-- Pattern `[a-zA-Z]+`. -/
def rword : RE := rplus rAlpha

/-- Pattern `[a-zA-Z]+(?:\s+[a-zA-Z]+)*`. -/
def rname : RE := RE.seq rword (RE.star (RE.seq rspaces rword))

/-- Pattern `([a-zA-Z]+(?:\s+[a-zA-Z]+)*)`. -/
def rgname : RE := RE.group rname

/-- Pattern `songs?`. -/
def rsongs : RE := RE.seq (rstr "song") (RE.opt (rchar 's'))

/-!
## The concrete patterns of `analyze_query`

Each pattern below transliterates one Python regex literal from
`spotify_data_query.py`, in the exact order the code tries them.
-/

/-- The "Song by Artist" regex of line 22.  The source is the raw string
`r'([^\\n]+?)\\s+by\\s+([^\\n]+?)(?:[\\s\\n]|$)'` compiled with
`re.IGNORECASE`: the doubled backslashes inside a raw string make `\\s`
a literal backslash followed by `s+`, and the classes `[^\\n]` / `[\\s\\n]`
are over the characters backslash, `s`, `n` (case-insensitively). -/
def sbaRE : RE :=
  rseqL
    [ RE.group (RE.seq (RE.cc (fun c => !(c == '\\' || c.toLower == 'n')))
        (RE.lstar (RE.cc (fun c => !(c == '\\' || c.toLower == 'n'))))),
      rchar '\\', RE.seq (rcharCI 's') (RE.star (rcharCI 's')),
      rcharCI 'b', rcharCI 'y',
      rchar '\\', RE.seq (rcharCI 's') (RE.star (rcharCI 's')),
      RE.group (RE.seq (RE.cc (fun c => !(c == '\\' || c.toLower == 'n')))
        (RE.lstar (RE.cc (fun c => !(c == '\\' || c.toLower == 'n'))))),
      raltL [RE.cc (fun c => c == '\\' || c.toLower == 's' || c.toLower == 'n'), RE.eos] ]

/-- Run the line-22 search on the raw query, returning the two stripped-later
groups (song, artist) like `song_by_artist.groups()`. -/
def sbaSearch (q : String) : Option (String × String) :=
  match searchAux sbaRE none q.toList with
  | some st => some (String.mk (st.1.headD []), String.mk ((st.1.drop 1).headD []))
  | none => none

/-- Pattern `(?:top|favorite|best|fave)`. -/
def rTopWords : RE := raltL [rstr "top", rstr "favorite", rstr "best", rstr "fave"]

/-- The six `artist_song_patterns` of lines 32-39, in order. -/
def artistSongPatterns : List RE :=
  [ rseqL [rTopWords, rspaces, rplus rDigit, rspaces, rgname, rspaces, rsongs],
    rseqL [rTopWords, rspaces, rgname, rspaces, rsongs],
    rseqL [raltL [rstr "my", rstr "give me", rstr "show me"], rspaces,
      RE.opt (RE.seq (rstr "my") rspaces), RE.opt rTopWords, RE.star rSpace,
      rplus rDigit, rspaces, rgname, rspaces, rsongs],
    rseqL [raltL [rstr "my", rstr "give me", rstr "show me"], rspaces,
      RE.opt (RE.seq (rstr "my") rspaces), RE.opt rTopWords, RE.star rSpace,
      rgname, rspaces, rsongs],
    rseqL [rgname, rspaces, rsongs],
    rseqL [rstr "song", RE.opt (rchar 's'), rspaces, rstr "by", rspaces, rgname] ]

/-- The three `first_song_patterns` of lines 68-72. -/
def firstSongPatterns : List RE :=
  [ rseqL [raltL [rstr "first", rstr "earliest"], rspaces, rgname, rspaces, rstr "song"],
    rseqL [raltL [rstr "what", rstr "which"], rspaces, raltL [rstr "is", rstr "was"], rspaces,
      RE.opt (RE.seq (rstr "the") rspaces), raltL [rstr "first", rstr "earliest"], rspaces,
      rgname, rspaces, rstr "song"],
    rseqL [raltL [rstr "first", rstr "earliest"], rspaces, rstr "song", rspaces,
      raltL [rstr "by", rstr "from"], rspaces, rgname] ]

/-- The two `first_genre_patterns` of lines 90-93. -/
def firstGenrePatterns : List RE :=
  [ rseqL [raltL [rstr "first", rstr "earliest"], rspaces, rgname, rspaces, rstr "song"],
    rseqL [raltL [rstr "what", rstr "which"], rspaces, raltL [rstr "is", rstr "was"], rspaces,
      RE.opt (RE.seq (rstr "the") rspaces), raltL [rstr "first", rstr "earliest"], rspaces,
      rgname, rspaces, rstr "song"] ]

/-- Pattern `(?:last|latest|most recent)`. -/
def rLastWords : RE := raltL [rstr "last", rstr "latest", rstr "most recent"]

/-- The four `last_song_patterns` of lines 103-108. -/
def lastSongPatterns : List RE :=
  [ rseqL [rLastWords, rspaces, rgname, rspaces, rstr "song"],
    rseqL [raltL [rstr "what", rstr "which"], rspaces, raltL [rstr "is", rstr "was"], rspaces,
      RE.opt (RE.seq (rstr "the") rspaces), rLastWords, rspaces, rgname, rspaces, rstr "song"],
    rseqL [rLastWords, rspaces, rstr "song", rspaces, raltL [rstr "by", rstr "from"], rspaces,
      rgname],
    rseqL [RE.opt (RE.seq (rstr "and") rspaces), RE.opt (RE.seq (rstr "my") rspaces),
      raltL [rstr "last", rstr "latest"], rspaces, rgname, rspaces, rstr "song"] ]

/-- The two `last_genre_patterns` of lines 126-129. -/
def lastGenrePatterns : List RE :=
  [ rseqL [rLastWords, rspaces, rgname, rspaces, rstr "song"],
    rseqL [raltL [rstr "what", rstr "which"], rspaces, raltL [rstr "is", rstr "was"], rspaces,
      RE.opt (RE.seq (rstr "the") rspaces), rLastWords, rspaces, rgname, rspaces, rstr "song"] ]

/-- Pattern `(?:st|nd|rd|th)`. -/
def rOrdSuffix : RE := raltL [rstr "st", rstr "nd", rstr "rd", rstr "th"]

/-- Pattern `(\d{1,2})` — greedy, so two digits are preferred. -/
def rDay : RE := RE.group (RE.seq rDigit (RE.opt rDigit))

/-- The three `day_patterns` of lines 299-303, applied to the raw query. -/
def dayPatterns : List RE :=
  [ rseqL [RE.wordB, rDay, rOrdSuffix, rspaces, rstr "of", RE.wordB],
    rseqL [RE.wordB, rDay, RE.opt rOrdSuffix, RE.wordB],
    rseqL [RE.wordB, rDay, RE.star rSpace, RE.opt (rchar ','), RE.star rSpace,
      rDigit, rDigit, rDigit, rDigit] ]

/-!
## Data model

One `Event` per row of the enriched dataframe.  The derived calendar fields
(`year`, `month`, `day`, `epochDay`, `hour`, `weekday` and the formatted
strings) are computed once at load from the timestamp by the constructor
(`__init__` / pandas `dt` accessors); they are carried here as fields of the
row, as the dataframe carries them as columns. -/
structure Event where
  track : String
  artist : String
  genres : String
  ts : Nat
  year : Nat
  month : Nat
  day : Nat
  epochDay : Nat
  hour : Nat
  weekday : String
  hoursPlayed : Rat
  dateLong : String
  timeHM : String
  isoStr : String
  dateISO : String
deriving DecidableEq, Inhabited, Repr

/-- A payload value: the JSON-ish shapes the analysis dicts hold. -/
inductive Val where
  | str : String → Val
  | nat : Nat → Val
  | rat : Rat → Val
  | obj : List (String × Val) → Val
  | arr : List Val → Val

/-- The query-result envelope (`query` / `analysis_type` / `data` /
`period_info`); `data` is an insertion-ordered mapping like a Python dict,
and `period_info` is `none` exactly where the source stores Python `None`. -/
structure Envelope where
  query : String
  analysisType : String
  data : List (String × Val)
  periodInfo : Option String

/-- Matching step for `containsCI`: the pattern matches at the head of the
text, a dot being the regex wildcard (any character except a newline) and
every other character matching itself. -/
def rexMatchAt : List Char → List Char → Bool
  | [], _ => true
  | _ :: _, [] => false
  | p :: ps, c :: cs =>
    (if p == '.' then !(c == '\n') else p == c) && rexMatchAt ps cs

/-- Search for the pattern at every position of the text, as `re.search`
scans. -/
def rexSearchB (pat : List Char) : List Char → Bool
  | [] => rexMatchAt pat []
  | c :: rest => rexMatchAt pat (c :: rest) || rexSearchB pat rest

/-- Embeds pandas `str.contains(pat, case=False, na=False)`, whose default
`regex=True` makes it a case-insensitive `re.search` of the pattern.  The
patterns this code passes are classifier candidates (letters and spaces
only) and generated name variations, which may additionally hold a literal
dot ("J. cole") that the regex engine reads as a wildcard — so "j. cole"
resolves against an artist "JP Cole".  No other metacharacter can occur in
them, so a search with a dot wildcard is the exact semantics; for dot-free
patterns it coincides with case-insensitive substring containment. -/
def containsCI (hay needle : String) : Bool :=
  rexSearchB (pyLower needle).toList (pyLower hay).toList

/-- Embeds `df['master_metadata_album_artist_name'].str.lower()
      .str.contains(cand, case=False, na=False).any()`. -/
def artistAnyContains (store : List Event) (cand : String) : Bool :=
  store.any (fun e => containsCI e.artist cand)

/-- Embeds `_generate_artist_name_variations`.  (On an empty word list the Python
code would raise `IndexError`; the callers only pass candidates captured by
`[a-zA-Z]+...` groups, which always contain a word.) -/
def generateArtistNameVariations (artistName : String) : List String :=
  match pySplit artistName with
  | [] => []
  | [w] => [pyCapitalize w, pyUpper w, "The " ++ pyCapitalize w]
  | w :: ws =>
    [ String.mk [(w.toList.headD 'a').toUpper] ++ ". " ++ joinSpace ws,
      joinSpace ((w :: ws).map pyCapitalize),
      joinSpace ((w :: ws).map pyUpper),
      "The " ++ pyTitle (joinSpace (w :: ws)) ]

/-- Count of occurrences of a key in a column. -/
def countOcc (l : List String) (x : String) : Nat := l.count x

/-- Stable descending insertion by count: an element is placed after every
earlier element whose count is at least as large, so equal counts keep the
first-encountered order. -/
def insertDesc (p : String × Nat) : List (String × Nat) → List (String × Nat)
  | [] => [p]
  | q :: qs => if q.2 ≤ p.2 then p :: q :: qs else q :: insertDesc p qs

/-- Sort `(key, count)` pairs by count, descending, stably. -/
def sortCountDesc (l : List (String × Nat)) : List (String × Nat) :=
  l.foldr insertDesc []

/-- Embeds `Series.value_counts()`: keys with their frequencies, most frequent
first (ties by first occurrence). -/
def valueCounts (l : List String) : List (String × Nat) :=
  sortCountDesc ((dedupFirst l).map (fun k => (k, l.count k)))

/-- First row of the minimum timestamp (`df['ts'].idxmin()` / `.min()`). -/
def argminTs : List Event → Option Event
  | [] => none
  | e :: es => some (es.foldl (fun b x => if x.ts < b.ts then x else b) e)

/-- First row of the maximum timestamp (`df['ts'].idxmax()` / `.max()`). -/
def argmaxTs : List Event → Option Event
  | [] => none
  | e :: es => some (es.foldl (fun b x => if b.ts < x.ts then x else b) e)

/-- Stable ascending insertion by timestamp (`sort_values("ts")`). -/
def insertTsAsc (e : Event) : List Event → List Event
  | [] => [e]
  | x :: xs => if e.ts ≤ x.ts then e :: x :: xs else x :: insertTsAsc e xs

/-- Embeds `filtered_data.sort_values("ts")`. -/
def sortByTs (l : List Event) : List Event :=
  l.foldr insertTsAsc []

/-- Sum of the `hours_played` column. -/
def sumHours (l : List Event) : Rat :=
  l.foldl (fun s e => s + e.hoursPlayed) 0

/-- The calendar-date value of a row (`df['date']` as a comparable triple). -/
def Event.dateT (e : Event) : Nat × Nat × Nat := (e.year, e.month, e.day)

/-- All genre labels of a view (`all_genres` of the genre aggregators): the
comma-joined field is split and stripped, rows whose whole field is empty or
`"Unknown"` contribute nothing. -/
def allGenres (view : List Event) : List String :=
  view.foldr
    (fun e acc =>
      (if e.genres ≠ "" && e.genres ≠ "Unknown" then
        (splitComma e.genres).map pyStrip
      else []) ++ acc) []

/-- Lexicographic date comparison for `df['date'].min()` / `.max()`. -/
def dateLtB (a b : Nat × Nat × Nat) : Bool :=
  a.1 < b.1 || (a.1 == b.1 && (a.2.1 < b.2.1 || (a.2.1 == b.2.1 && a.2.2 < b.2.2)))

/-- Row of the minimum date (first such row in store order). -/
def argminDate : List Event → Option Event
  | [] => none
  | e :: es => some (es.foldl (fun b x => if dateLtB x.dateT b.dateT then x else b) e)

/-- Row of the maximum date (first such row in store order). -/
def argmaxDate : List Event → Option Event
  | [] => none
  | e :: es => some (es.foldl (fun b x => if dateLtB b.dateT x.dateT then x else b) e)

/-- Boolean string order (codepoint lexicographic, as Python `<`). -/
def strLeB : List Char → List Char → Bool
  | [], _ => true
  | _ :: _, [] => false
  | a :: as, b :: bs => if a < b then true else if b < a then false else strLeB as bs

/-- Ascending insertion for strings. -/
def insertStrAsc (s : String) : List String → List String
  | [] => [s]
  | x :: xs => if strLeB s.toList x.toList then s :: x :: xs else x :: insertStrAsc s xs

/-- Sorted distinct keys, as a `groupby` over a string column produces. -/
def groupKeysStr (l : List String) : List String :=
  (dedupFirst l).foldr insertStrAsc []

/-- Embeds `groupby(col).size().idxmax()` over string keys: the first key, in the
sorted key order, whose group is largest. -/
def idxmaxStr (l : List String) : String :=
  match groupKeysStr l with
  | [] => ""
  | k :: ks => ks.foldl (fun best x => if l.count best < l.count x then x else best) k

/-- Embeds `groupby(col).size().idxmax()` over `Nat` keys (hour of day). -/
def idxmaxNat (l : List Nat) : Nat :=
  match sortNatAsc (dedupFirst l) with
  | [] => 0
  | k :: ks => ks.foldl (fun best x => if l.count best < l.count x then x else best) k

/-- Renders `(key, count)` pairs as a payload dict. -/
def countsObj (l : List (String × Nat)) : List (String × Val) :=
  l.map (fun p => (p.1, Val.nat p.2))

/-!
## Temporal scope extractor (`_filter_by_time`)
-/

/-- The month-name mapping of lines 277-280. -/
def monthsList : List (String × Nat) :=
  [("january", 1), ("february", 2), ("march", 3), ("april", 4), ("may", 5), ("june", 6),
   ("july", 7), ("august", 8), ("september", 9), ("october", 10), ("november", 11),
   ("december", 12)]

/-- Embeds `list(months.keys())[m-1].title()`. -/
def monthTitle (m : Nat) : String :=
  pyTitle (((monthsList.find? (fun x => x.2 == m)).getD ("", 0)).1)

/-- Year extraction (lines 283-288): the first member of the ascending sorted
distinct year set whose decimal string occurs in the raw query. -/
def detectYear (q : String) (store : List Event) : Option Nat :=
  (sortNatAsc (dedupFirst (store.map Event.year))).find? (fun y => substrB (toString y) q)

/-- Month extraction (lines 291-295): the first month name occurring in the
lowered query. -/
def detectMonth (ql : String) : Option Nat :=
  (monthsList.find? (fun m => substrB m.1 ql)).map (fun m => m.2)

/-- Day extraction (lines 298-313): for each pattern in order, the first
`findall` match whose value lies in `1..31`; the first pattern producing a
valid day wins. -/
def detectDay (q : String) : Option Nat :=
  firstSome
    (fun pat =>
      firstSome
        (fun m => let d := strToNat m; if 1 ≤ d && d ≤ 31 then some d else none)
        (findAll1 pat q))
    dayPatterns

/-- Embeds `_filter_by_time` (lines 272-341): returns the scoped view and the
period label.  All branches produce a filtered copy; the all-time branch is
`self.df.copy()`.  (In the exact-date branch the source builds a
`pd.Timestamp` and compares the `date` column against it; comparing the
derived year/month/day fields is the same comparison.) -/
def filterByTime (q : String) (store : List Event) : List Event × String :=
  let ql := pyLower q
  match detectYear q store with
  | some y =>
    match detectMonth ql with
    | some m =>
      match detectDay q with
      | some d =>
        (store.filter (fun e => e.year == y && e.month == m && e.day == d),
          monthTitle m ++ " " ++ toString d ++ ", " ++ toString y)
      | none =>
        (store.filter (fun e => e.year == y && e.month == m),
          monthTitle m ++ " " ++ toString y)
    | none => (store.filter (fun e => e.year == y), "Year " ++ toString y)
  | none =>
    if substrB "recent" ql || substrB "lately" ql then
      let maxE : Nat := (store.map Event.epochDay).foldl max 0
      (store.filter (fun e => (maxE : Int) - 30 ≤ (e.epochDay : Int)), "Last 30 days")
    else
      (store, "All time")

/-- Gregorian leap-year rule, as `pd.Timestamp` validates dates. -/
def isLeapYear (y : Nat) : Bool :=
  (y % 4 == 0 && y % 100 != 0) || y % 400 == 0

/-- Days in a month of the proleptic Gregorian calendar. -/
def daysInMonth (y m : Nat) : Nat :=
  if m == 2 then (if isLeapYear y then 29 else 28)
  else if m == 4 || m == 6 || m == 9 || m == 11 then 30
  else 31

/-- The midnight timestamps constructible as pandas `datetime64[ns]`:
`pd.Timestamp(year, month, day)` raises a `ValueError` on a day beyond the
month's length and an `OutOfBoundsDatetime` outside 1677-09-22 to
2262-04-11 (the month is 1-12 and the day 1-31 wherever this predicate is
used, by construction of the extractors). -/
def tsConstructible (y m d : Nat) : Bool :=
  d ≤ daysInMonth y m &&
    (1677 < y || (y == 1677 && (9 < m || (m == 9 && 22 ≤ d)))) &&
    (y < 2262 || (y == 2262 && (m < 4 || (m == 4 && d ≤ 11))))

/-- True exactly when the `pd.Timestamp(year=.., month=.., day=..)` of
line 318 does not raise on this query: either the exact-date branch is not
reached, or the detected triple is a constructible date.  `_filter_by_time`
has no exception handler, so on a non-constructible detected date the
source propagates the exception out of `analyze_query` and produces no
envelope at all — a path the total functions of this embedding do not
take. -/
def timestampOk (q : String) (store : List Event) : Bool :=
  match detectYear q store, detectMonth (pyLower q), detectDay q with
  | some y, some m, some d => tsConstructible y m d
  | _, _, _ => true

/-!
## Aggregation engine
-/

/-- Embeds `_query_song_by_artist` (lines 198-247). -/
def querySongByArtist (store : List Event) (song artist : String) : Envelope :=
  let matchRows := store.filter
    (fun e => pyLower e.track == pyLower song && pyLower e.artist == pyLower artist)
  if matchRows.isEmpty then
    let songMatches := store.filter (fun e => pyLower e.track == pyLower song)
    let artistMatches := store.filter (fun e => pyLower e.artist == pyLower artist)
    let errorMsg :=
      if !songMatches.isEmpty && !artistMatches.isEmpty then
        "You have listened to \"" ++ song ++ "\" but by "
          ++ (songMatches.headD default).artist ++ ", not " ++ artist
      else if !songMatches.isEmpty then
        "You have listened to \"" ++ song ++ "\" but by "
          ++ (songMatches.headD default).artist ++ ", not " ++ artist
      else if !artistMatches.isEmpty then
        "You listen to " ++ artist ++ ", but not the song \"" ++ song ++ "\""
      else
        "No data found for \"" ++ song ++ "\" by " ++ artist
    ⟨song ++ " by " ++ artist, "song_by_artist", [("error", Val.str errorMsg)], none⟩
  else
    let fp := (argminTs matchRows).getD default
    let lp := (argmaxTs matchRows).getD default
    ⟨song ++ " by " ++ artist, "song_by_artist",
      [ ("song", Val.str (matchRows.headD default).track),
        ("artist", Val.str (matchRows.headD default).artist),
        ("first_listen_date", Val.str fp.dateLong),
        ("first_listen_time", Val.str fp.timeHM),
        ("last_listen_date", Val.str lp.dateLong),
        ("total_plays", Val.nat matchRows.length),
        ("years_active", Val.str
          (if fp.year == lp.year then toString fp.year
           else toString fp.year ++ "-" ++ toString lp.year)) ],
      some ("First played: " ++ fp.dateLong)⟩

/-- Embeds `_get_favorite_artist` (lines 249-270). -/
def getFavoriteArtist (view : List Event) (p : String) : Envelope :=
  if view.isEmpty then
    ⟨"favorite artist in " ++ p, "favorite_artist",
      [("error", Val.str ("No data found for " ++ p))], some p⟩
  else
    let vc := valueCounts (view.map Event.artist)
    ⟨"favorite artist in " ++ p, "favorite_artist",
      [ ("top_artists", Val.obj [((vc.headD ("", 0)).1, Val.nat (vc.headD ("", 0)).2)]),
        ("period", Val.str p) ],
      some p⟩

/-- Embeds `_get_favorite_song` (lines 343-366). -/
def getFavoriteSong (view : List Event) (p : String) : Envelope :=
  if view.isEmpty then
    ⟨"favorite song in " ++ p, "favorite_song",
      [("error", Val.str ("No data found for " ++ p))], some p⟩
  else
    let vc := valueCounts (view.map Event.track)
    let topSong := (vc.headD ("", 0)).1
    let artist := ((view.filter (fun e => e.track == topSong)).headD default).artist
    ⟨"favorite song in " ++ p, "favorite_song",
      [ ("top_songs", Val.obj [(topSong, Val.nat (vc.headD ("", 0)).2)]),
        ("artist", Val.str artist),
        ("period", Val.str p) ],
      some p⟩

/-- Embeds `_get_favorite_genre` (lines 367-417).  (The dataframe built by this
repository always has a `genres` column, so the missing-column branch of the
source is not reachable in this model.) -/
def getFavoriteGenre (view : List Event) (p : String) : Envelope :=
  if view.isEmpty then
    ⟨"favorite genre in " ++ p, "favorite_genre",
      [("error", Val.str ("No data found for " ++ p))], some p⟩
  else
    let ag := allGenres view
    if ag.isEmpty then
      ⟨"favorite genre in " ++ p, "favorite_genre",
        [("error", Val.str ("No genre data found for " ++ p))], some p⟩
    else
      let vc := valueCounts ag
      ⟨"favorite genre in " ++ p, "favorite_genre",
        [ ("top_genre", Val.str (vc.headD ("", 0)).1),
          ("track_count", Val.nat (vc.headD ("", 0)).2),
          ("top_genres", Val.obj (countsObj (vc.take 5))),
          ("period", Val.str p) ],
        some p⟩

/-- Embeds `_get_multiple_favorites` (lines 419-473): each requested sub-aggregate
is computed independently; the genre entry is added only when genre data is
present. -/
def getMultipleFavorites (view : List Event) (p : String) (requestedTypes : List String) :
    Envelope :=
  if view.isEmpty then
    ⟨"multiple favorites in " ++ p, "multiple_favorites",
      [("error", Val.str ("No data found for " ++ p))], some p⟩
  else
    let songPart :=
      if "song" ∈ requestedTypes then
        let vc := valueCounts (view.map Event.track)
        let topSong := (vc.headD ("", 0)).1
        [("top_song", Val.obj
          [ ("name", Val.str topSong),
            ("artist", Val.str
              (((view.filter (fun e => e.track == topSong)).headD default).artist)),
            ("plays", Val.nat (vc.headD ("", 0)).2) ])]
      else []
    let artistPart :=
      if "artist" ∈ requestedTypes then
        let vc := valueCounts (view.map Event.artist)
        [("top_artist", Val.obj
          [ ("name", Val.str (vc.headD ("", 0)).1),
            ("plays", Val.nat (vc.headD ("", 0)).2) ])]
      else []
    let genrePart :=
      if "genre" ∈ requestedTypes then
        let ag := allGenres view
        if ag.isEmpty then []
        else
          let vc := valueCounts ag
          [("top_genre", Val.obj
            [ ("name", Val.str (vc.headD ("", 0)).1),
              ("tracks", Val.nat (vc.headD ("", 0)).2) ])]
      else []
    ⟨"multiple favorites in " ++ p, "multiple_favorites",
      songPart ++ artistPart ++ genrePart, some p⟩

/-- The artist-row selection shared by `_get_first_song_by_artist`,
`_get_last_song_by_artist` and `_get_artist_songs`: a case-insensitive
substring filter on the artist column, retried over the name variations
when the direct filter is empty. -/
def artistRows (view : List Event) (artistName : String) : List Event :=
  let direct := view.filter (fun e => containsCI e.artist artistName)
  if direct.isEmpty then
    (firstSome
      (fun v =>
        let d := view.filter (fun e => containsCI e.artist v)
        if d.isEmpty then none else some d)
      (generateArtistNameVariations artistName)).getD []
  else direct

/-- Embeds `_get_first_song_by_artist` (lines 506-548). -/
def getFirstSongByArtist (view : List Event) (p : String) (artistName : String) : Envelope :=
  let artistData := artistRows view artistName
  if artistData.isEmpty then
    ⟨"first " ++ artistName ++ " song", "first_song",
      [("error", Val.str ("No songs found for " ++ artistName))], some p⟩
  else
    let fs := (argminTs artistData).getD default
    ⟨"first " ++ artistName ++ " song", "first_song",
      [ ("artist", Val.str (artistData.headD default).artist),
        ("song", Val.str fs.track),
        ("date", Val.str fs.dateLong),
        ("time", Val.str fs.timeHM),
        ("timestamp", Val.str fs.isoStr) ],
      some p⟩

/-- Embeds `_get_first_song_by_genre` (lines 550-588): no existence check of the
candidate against stored genres; the filter simply runs case-insensitively
over the comma-joined genre strings. -/
def getFirstSongByGenre (view : List Event) (p : String) (genreName : String) : Envelope :=
  let genreData := view.filter (fun e => containsCI e.genres genreName)
  if genreData.isEmpty then
    ⟨"first " ++ genreName ++ " song", "first_song",
      [("error", Val.str ("No songs found for genre " ++ genreName))], some p⟩
  else
    let fs := (argminTs genreData).getD default
    ⟨"first " ++ genreName ++ " song", "first_song",
      [ ("genre", Val.str genreName),
        ("song", Val.str fs.track),
        ("artist", Val.str fs.artist),
        ("date", Val.str fs.dateLong),
        ("time", Val.str fs.timeHM),
        ("timestamp", Val.str fs.isoStr) ],
      some p⟩

/-- Embeds `_get_last_song_by_artist` (lines 590-632). -/
def getLastSongByArtist (view : List Event) (p : String) (artistName : String) : Envelope :=
  let artistData := artistRows view artistName
  if artistData.isEmpty then
    ⟨"last " ++ artistName ++ " song", "last_song",
      [("error", Val.str ("No songs found for " ++ artistName))], some p⟩
  else
    let ls := (argmaxTs artistData).getD default
    ⟨"last " ++ artistName ++ " song", "last_song",
      [ ("artist", Val.str (artistData.headD default).artist),
        ("song", Val.str ls.track),
        ("date", Val.str ls.dateLong),
        ("time", Val.str ls.timeHM),
        ("timestamp", Val.str ls.isoStr) ],
      some p⟩

/-- Embeds `_get_last_song_by_genre` (lines 634-672). -/
def getLastSongByGenre (view : List Event) (p : String) (genreName : String) : Envelope :=
  let genreData := view.filter (fun e => containsCI e.genres genreName)
  if genreData.isEmpty then
    ⟨"last " ++ genreName ++ " song", "last_song",
      [("error", Val.str ("No songs found for genre " ++ genreName))], some p⟩
  else
    let ls := (argmaxTs genreData).getD default
    ⟨"last " ++ genreName ++ " song", "last_song",
      [ ("genre", Val.str genreName),
        ("song", Val.str ls.track),
        ("artist", Val.str ls.artist),
        ("date", Val.str ls.dateLong),
        ("time", Val.str ls.timeHM),
        ("timestamp", Val.str ls.isoStr) ],
      some p⟩

/-- Embeds `_get_artist_songs` (lines 674-716). -/
def getArtistSongs (view : List Event) (p : String) (artistName : String) : Envelope :=
  let artistData := artistRows view artistName
  if artistData.isEmpty then
    ⟨artistName ++ " songs in " ++ p, "artist_songs",
      [("error", Val.str ("No songs found for " ++ artistName ++ " in " ++ p))], some p⟩
  else
    ⟨artistName ++ " songs in " ++ p, "artist_songs",
      [ ("artist", Val.str (artistData.headD default).artist),
        ("top_songs", Val.obj (countsObj ((valueCounts (artistData.map Event.track)).take 10))),
        ("total_plays", Val.nat artistData.length),
        ("total_hours", Val.rat (sumHours artistData)) ],
      some p⟩

/-- Embeds `_extract_top_genres` (lines 718-732), as the `(key, count)` list behind
the returned dict. -/
def extractTopGenres (view : List Event) (limit : Nat) : List (String × Nat) :=
  if view.isEmpty then []
  else
    let ag := allGenres view
    if ag.isEmpty then [] else (valueCounts ag).take limit

/-- Embeds `groupby('date')['hours_played'].sum().mean()`. -/
def avgDailyHours (view : List Event) : Rat :=
  let ds := dedupFirst (view.map Event.dateT)
  (ds.map (fun d => sumHours (view.filter (fun e => decide (e.dateT = d))))).foldl (· + ·) 0
    / (ds.length : Rat)

/-- Embeds `_get_daily_listening` (lines 734-789). -/
def getDailyListening (view : List Event) (p : String) : Envelope :=
  if view.isEmpty then
    ⟨"listening on " ++ p, "daily_listening",
      [("error", Val.str ("No listening data found for " ++ p))], some p⟩
  else if (dedupFirst (view.map Event.dateT)).length == 1 then
    let tracksList := (sortByTs view).map
      (fun t => Val.obj
        [("time", Val.str t.timeHM), ("song", Val.str t.track), ("artist", Val.str t.artist)])
    ⟨"listening on " ++ p, "daily_listening",
      [ ("date", Val.str p),
        ("total_tracks", Val.nat view.length),
        ("total_hours", Val.rat (sumHours view)),
        ("tracks_chronological", Val.arr (tracksList.take 20)),
        ("top_artist_that_day",
          Val.str ((valueCounts (view.map Event.artist)).headD ("", 0)).1),
        ("most_played_song",
          Val.str ((valueCounts (view.map Event.track)).headD ("", 0)).1) ],
      some p⟩
  else
    ⟨"listening in " ++ p, "period_summary",
      [ ("stats", Val.obj
          [ ("total_plays", Val.nat view.length),
            ("total_hours", Val.rat (sumHours view)),
            ("unique_artists", Val.nat (dedupFirst (view.map Event.artist)).length),
            ("unique_songs", Val.nat (dedupFirst (view.map Event.track)).length) ]),
        ("top_artists", Val.obj (countsObj ((valueCounts (view.map Event.artist)).take 5))),
        ("top_songs", Val.obj (countsObj ((valueCounts (view.map Event.track)).take 5))),
        ("top_genres", Val.obj (countsObj (extractTopGenres view 5))),
        ("time_patterns", Val.obj
          [ ("peak_listening_hour",
              Val.nat (if view.isEmpty then 0 else idxmaxNat (view.map Event.hour))),
            ("peak_listening_day",
              Val.str (if view.isEmpty then "Unknown" else idxmaxStr (view.map Event.weekday))) ]) ],
      some p⟩

/-- The omnibus statistics envelope of lines 172-196 (the general fallback
on a non-empty scoped view). -/
def generalStats (q : String) (view : List Event) (p : String) : Envelope :=
  ⟨q, "general",
    [ ("stats", Val.obj
        [ ("total_plays", Val.nat view.length),
          ("total_hours", Val.rat (sumHours view)),
          ("unique_artists", Val.nat (dedupFirst (view.map Event.artist)).length),
          ("unique_songs", Val.nat (dedupFirst (view.map Event.track)).length),
          ("date_range", Val.str
            (((argminDate view).getD default).dateISO ++ " to "
              ++ ((argmaxDate view).getD default).dateISO)),
          ("avg_daily_hours", Val.rat (if view.isEmpty then 0 else avgDailyHours view)),
          ("most_active_day",
            Val.str (if view.isEmpty then "Unknown" else idxmaxStr (view.map Event.weekday))),
          ("most_active_hour",
            Val.nat (if view.isEmpty then 0 else idxmaxNat (view.map Event.hour))) ]),
      ("top_artists", Val.obj (countsObj ((valueCounts (view.map Event.artist)).take 10))),
      ("top_songs", Val.obj (countsObj ((valueCounts (view.map Event.track)).take 10))),
      ("top_genres", Val.obj (countsObj (extractTopGenres view 5))),
      ("time_patterns", Val.obj
        [ ("peak_listening_hour",
            Val.nat (if view.isEmpty then 0 else idxmaxNat (view.map Event.hour))),
          ("peak_listening_day",
            Val.str (if view.isEmpty then "Unknown" else idxmaxStr (view.map Event.weekday))) ]),
      ("total_tracks_in_period", Val.nat view.length) ],
    some p⟩

/-!
## Intent classifier (`analyze_query`)
-/

/-- The generic filler words rejected as entity candidates (lines 47, 78,
99, 114, 135). -/
def fillerWords : List String :=
  ["my", "me", "favorite", "top", "best", "fave", "all", "the"]

/-- The artist-song pattern cascade of lines 41-62: the first pattern whose
captured candidate is not a filler word and resolves (directly or via a name
variation) against the full store. -/
def detectArtistSong (store : List Event) (ql : String) : Option String :=
  firstSome
    (fun pat =>
      match reSearch1 pat ql with
      | none => none
      | some g =>
        let cand := pyStrip g
        if fillerWords.contains cand then none
        else if artistAnyContains store cand then some cand
        else if (generateArtistNameVariations cand).any
            (fun v => artistAnyContains store (pyLower v)) then some cand
        else none)
    artistSongPatterns

/-- The first-song-by-artist cascade of lines 67-87. -/
def dispatchFirstArtist (store view : List Event) (p : String) (ql : String) :
    Option Envelope :=
  firstSome
    (fun pat =>
      match reSearch1 pat ql with
      | none => none
      | some g =>
        let cand := pyStrip g
        if fillerWords.contains cand then none
        else if artistAnyContains store cand then some (getFirstSongByArtist view p cand)
        else if (generateArtistNameVariations cand).any
            (fun v => artistAnyContains store (pyLower v)) then
          some (getFirstSongByArtist view p cand)
        else none)
    firstSongPatterns

/-- The first-genre candidate of lines 89-100: the first pattern match with
a non-filler candidate dispatches, with no validation of the candidate. -/
def firstGenreCand (ql : String) : Option String :=
  firstSome
    (fun pat =>
      match reSearch1 pat ql with
      | none => none
      | some g =>
        let cand := pyStrip g
        if fillerWords.contains cand then none else some cand)
    firstGenrePatterns

/-- The last-song-by-artist cascade of lines 102-123. -/
def dispatchLastArtist (store view : List Event) (p : String) (ql : String) :
    Option Envelope :=
  firstSome
    (fun pat =>
      match reSearch1 pat ql with
      | none => none
      | some g =>
        let cand := pyStrip g
        if fillerWords.contains cand then none
        else if artistAnyContains store cand then some (getLastSongByArtist view p cand)
        else if (generateArtistNameVariations cand).any
            (fun v => artistAnyContains store (pyLower v)) then
          some (getLastSongByArtist view p cand)
        else none)
    lastSongPatterns

/-- The last-genre candidate of lines 125-136. -/
def lastGenreCand (ql : String) : Option String :=
  firstSome
    (fun pat =>
      match reSearch1 pat ql with
      | none => none
      | some g =>
        let cand := pyStrip g
        if fillerWords.contains cand then none else some cand)
    lastGenrePatterns

/-- Line 139. -/
def wantsSong (ql : String) : Bool :=
  ["favorite song", "top song", "best song", "song"].any (fun s => substrB s ql)

/-- Line 140. -/
def wantsArtist (ql : String) : Bool :=
  ["favorite artist", "top artist", "best artist", "artist"].any (fun s => substrB s ql)

/-- Line 141. -/
def wantsGenre (ql : String) : Bool :=
  ["favorite genre", "top genre", "best genre", "genre"].any (fun s => substrB s ql)

/-- Line 160: the daily-listening trigger phrases. -/
def dailyTrigger (ql : String) : Bool :=
  ["what did i listen", "listened to on", "music on", "listening history",
   "how long did i listen", "how much music", "music for on"].any (fun s => substrB s ql)

/-- The AND-combination dispatch of lines 143-151: the multi-favorite
request subset, or `none` when fewer than two signals co-occur. -/
def requestedSubset (ws wa wg : Bool) : Option (List String) :=
  if ws && wa && wg then some ["song", "artist", "genre"]
  else if ws && wa then some ["song", "artist"]
  else if ws && wg then some ["song", "genre"]
  else if wa && wg then some ["artist", "genre"]
  else none

/-- Embeds `analyze_query` (lines 18-196): the full cascade. -/
def analyzeQuery (store : List Event) (q : String) : Envelope :=
  match sbaSearch q with
  | some sa => querySongByArtist store (pyStrip sa.1) (pyStrip sa.2)
  | none =>
    let fp := filterByTime q store
    let ql := pyLower q
    match detectArtistSong store ql with
    | some a => getArtistSongs fp.1 fp.2 a
    | none =>
      match dispatchFirstArtist store fp.1 fp.2 ql with
      | some env => env
      | none =>
        match firstGenreCand ql with
        | some g => getFirstSongByGenre fp.1 fp.2 g
        | none =>
          match dispatchLastArtist store fp.1 fp.2 ql with
          | some env => env
          | none =>
            match lastGenreCand ql with
            | some g => getLastSongByGenre fp.1 fp.2 g
            | none =>
              match requestedSubset (wantsSong ql) (wantsArtist ql) (wantsGenre ql) with
              | some req => getMultipleFavorites fp.1 fp.2 req
              | none =>
                if wantsSong ql then getFavoriteSong fp.1 fp.2
                else if wantsArtist ql then getFavoriteArtist fp.1 fp.2
                else if wantsGenre ql then getFavoriteGenre fp.1 fp.2
                else if dailyTrigger ql then getDailyListening fp.1 fp.2
                else if fp.1.isEmpty then
                  ⟨q, "general", [("error", Val.str ("No data found for " ++ fp.2))], some fp.2⟩
                else generalStats q fp.1 fp.2

/-- The query session as a state transformer over the event store:
`analyze_query` and every helper only ever read `self.df` (no statement in
the method assigns it), so the state-passing translation of the method
returns the store unchanged alongside the envelope. -/
def analyzeQuerySession (store : List Event) (q : String) : Envelope × List Event :=
  (analyzeQuery store q, store)

/-!
## Concrete example stores used to evaluate the theorems
-/

/-- A sample listen event with the derived fields filled in. -/
def mkEvent (track artist genres : String) (ts year month day epochDay : Nat) : Event :=
  { track := track, artist := artist, genres := genres, ts := ts, year := year,
    month := month, day := day, epochDay := epochDay, hour := 10, weekday := "Monday",
    hoursPlayed := 1, dateLong := "July 05, 2023", timeHM := "10:00",
    isoStr := "2023-07-05T10:00:00", dateISO := "2023-07-05" }

/-- Store for the song-by-artist claim: the pairing Water / Tyla exists. -/
def storeWater : List Event :=
  [ mkEvent "Water" "Tyla" "amapiano, pop" 100 2023 7 5 19543,
    mkEvent "Truth Hurts" "Lizzo" "pop" 200 2023 8 6 19575 ]

/-- Store for the first-song claim: "Blue" is a song title, not an artist or
a genre. -/
def storeBlue : List Event :=
  [ mkEvent "Blue" "Beyonce" "pop, rnb" 100 2021 1 1 18628,
    mkEvent "Red" "Taylor Swift" "pop" 200 2021 6 1 18779 ]

/-- Store for the year-scope claim: two years of data. -/
def storeYears : List Event :=
  [ mkEvent "Blue" "Beyonce" "pop" 100 2021 1 1 18628,
    mkEvent "Red" "Taylor Swift" "pop" 200 2022 6 1 19144,
    mkEvent "Blue" "Beyonce" "pop" 300 2021 3 2 18688 ]

/-- Store for the multi-favorite and ranking claims. -/
def storeMulti : List Event :=
  [ mkEvent "Water" "Tyla" "amapiano" 100 2023 7 5 19543,
    mkEvent "Water" "Tyla" "amapiano" 200 2023 7 6 19544,
    mkEvent "Truth Hurts" "Lizzo" "pop" 300 2023 8 6 19575 ]

/-- Store for the genre-exclusion claim: one row with no genre information. -/
def storeGenres : List Event :=
  [ mkEvent "Water" "Tyla" "amapiano, pop" 100 2023 7 5 19543,
    mkEvent "Mystery" "Nobody" "Unknown" 200 2023 7 6 19544,
    mkEvent "Truth Hurts" "Lizzo" "pop" 300 2023 8 6 19575 ]

/-- Store for the substring-containment claim: two distinct artists whose
names both contain the candidate "drake". -/
def storeDrake : List Event :=
  [ mkEvent "Song A" "Drake" "rap" 100 2019 1 1 17897,
    mkEvent "Song B" "Drake Bell" "pop" 200 2019 2 1 17928,
    mkEvent "Song C" "Drake" "rap" 300 2019 3 1 17956 ]

/-!
## Theorems
-/

/-- Applying `firstSome` to an everywhere-`none` function gives `none`. -/
theorem firstSome_eq_none {f : α → Option β} {l : List α}
    (h : ∀ a ∈ l, f a = none) : firstSome f l = none := by
  induction l with
  | nil => rfl
  | cons a as ih =>
    have ha := h a (List.mem_cons_self a as)
    simp only [firstSome, ha]
    exact ih (fun x hx => h x (List.mem_cons_of_mem a hx))

/-- Applying `any` to an everywhere-`false` predicate gives `false`. -/
theorem any_eq_false {f : α → Bool} {l : List α}
    (h : ∀ a ∈ l, f a = false) : l.any f = false := by
  induction l with
  | nil => rfl
  | cons a as ih =>
    simp only [List.any_cons, h a (List.mem_cons_self a as), Bool.false_or]
    exact ih (fun x hx => h x (List.mem_cons_of_mem a hx))

/-- Over an empty store no candidate ever resolves, so the artist-song
cascade yields nothing, whatever the query. -/
theorem detectArtistSong_empty (ql : String) : detectArtistSong [] ql = none := by
  unfold detectArtistSong
  apply firstSome_eq_none
  intro pat _
  cases hg : reSearch1 pat ql with
  | none => simp [hg]
  | some g =>
    simp only [hg]
    split
    · rfl
    · simp [artistAnyContains]

/-- Over an empty store the first-song-by-artist cascade yields nothing. -/
theorem dispatchFirstArtist_empty (view : List Event) (p ql : String) :
    dispatchFirstArtist [] view p ql = none := by
  unfold dispatchFirstArtist
  apply firstSome_eq_none
  intro pat _
  cases hg : reSearch1 pat ql with
  | none => simp [hg]
  | some g =>
    simp only [hg]
    split
    · rfl
    · simp [artistAnyContains]

/-- Over an empty store the last-song-by-artist cascade yields nothing. -/
theorem dispatchLastArtist_empty (view : List Event) (p ql : String) :
    dispatchLastArtist [] view p ql = none := by
  unfold dispatchLastArtist
  apply firstSome_eq_none
  intro pat _
  cases hg : reSearch1 pat ql with
  | none => simp [hg]
  | some g =>
    simp only [hg]
    split
    · rfl
    · simp [artistAnyContains]

/-- The artist-row selection over an empty view is empty. -/
theorem artistRows_nil (name : String) : artistRows [] name = [] := by
  unfold artistRows
  simp only [List.filter_nil, List.isEmpty_nil, if_pos rfl]
  rw [firstSome_eq_none]
  · rfl
  · intro v _
    simp

/-- C7: every aggregation routine, handed an empty input view (for
`_query_song_by_artist`, an empty store), returns a payload whose only key
is `error`, mapped to its explanatory message, and nothing else. -/
theorem claim_C7 :
    (∀ song artist, (querySongByArtist [] song artist).data =
      [("error", Val.str ("No data found for \"" ++ song ++ "\" by " ++ artist))]) ∧
    (∀ p, (getFavoriteSong [] p).data =
      [("error", Val.str ("No data found for " ++ p))]) ∧
    (∀ p, (getFavoriteArtist [] p).data =
      [("error", Val.str ("No data found for " ++ p))]) ∧
    (∀ p, (getFavoriteGenre [] p).data =
      [("error", Val.str ("No data found for " ++ p))]) ∧
    (∀ p req, (getMultipleFavorites [] p req).data =
      [("error", Val.str ("No data found for " ++ p))]) ∧
    (∀ p, (getDailyListening [] p).data =
      [("error", Val.str ("No listening data found for " ++ p))]) ∧
    (∀ p name, (getArtistSongs [] p name).data =
      [("error", Val.str ("No songs found for " ++ name ++ " in " ++ p))]) ∧
    (∀ p name, (getFirstSongByArtist [] p name).data =
      [("error", Val.str ("No songs found for " ++ name))]) ∧
    (∀ p g, (getFirstSongByGenre [] p g).data =
      [("error", Val.str ("No songs found for genre " ++ g))]) ∧
    (∀ p name, (getLastSongByArtist [] p name).data =
      [("error", Val.str ("No songs found for " ++ name))]) ∧
    (∀ p g, (getLastSongByGenre [] p g).data =
      [("error", Val.str ("No songs found for genre " ++ g))]) := by
  refine ⟨fun song artist => rfl, fun p => rfl, fun p => rfl, fun p => rfl,
    fun p req => rfl, fun p => rfl, ?_, ?_, fun p g => rfl, ?_, fun p g => rfl⟩
  · intro p name
    simp [getArtistSongs, artistRows_nil]
  · intro p name
    simp [getFirstSongByArtist, artistRows_nil]
  · intro p name
    simp [getLastSongByArtist, artistRows_nil]

/-- C9: a query never changes the event store — the state-passing rendering
of `analyze_query` returns the store it was given — and the scoped view the
temporal filter produces is a sublist (a non-mutating subset in store
order) of the store. -/
theorem claim_C9 (store : List Event) (q : String) :
    (analyzeQuerySession store q).2 = store ∧
    ((filterByTime q store).1).Sublist store := by
  refine ⟨rfl, ?_⟩
  cases hy : detectYear q store with
  | some y =>
    cases hm : detectMonth (pyLower q) with
    | some m =>
      cases hd : detectDay q with
      | some d =>
        simp only [filterByTime, hy, hm, hd]
        exact List.filter_sublist _
      | none =>
        simp only [filterByTime, hy, hm, hd]
        exact List.filter_sublist _
    | none =>
      simp only [filterByTime, hy, hm]
      exact List.filter_sublist _
  | none =>
    by_cases hr : (substrB "recent" (pyLower q) || substrB "lately" (pyLower q)) = true
    · simp only [filterByTime, hy, hr, if_pos]
      exact List.filter_sublist _
    · simp only [filterByTime, hy, Bool.not_eq_true] at hr ⊢
      simp only [hr, Bool.false_eq_true, if_neg, ite_false]
      exact List.Sublist.refl store

/-- C1 (code bug): the pairing "Water" / "Tyla" exists in the store and the
direct lookup finds it, but the line-22 pattern — whose doubled backslashes
demand literal backslash characters in the query — fails on the plain query
"Water by Tyla", so `analyze_query` falls through to the general fallback
instead of returning a `song_by_artist` envelope. -/
theorem claim_C1_eval :
    sbaSearch "Water by Tyla" = none ∧
    (analyzeQuery storeWater "Water by Tyla").analysisType = "general" ∧
    (querySongByArtist storeWater "Water" "Tyla").data.lookup "song" =
      some (Val.str "Water") ∧
    (querySongByArtist storeWater "Water" "Tyla").data.lookup "artist" =
      some (Val.str "Tyla") := by
  refine ⟨rfl, rfl, rfl, rfl⟩

/-- C2 (counterexample): on a store where "Blue" is only a song title, the
query "first Blue song" does not fall through to the general fallback: the
genre first-song family dispatches unvalidated and a `first_song` envelope
with an error payload is returned. -/
theorem claim_C2_counterexample :
    (analyzeQuery storeBlue "first Blue song").analysisType = "first_song" ∧
    (analyzeQuery storeBlue "first Blue song").data =
      [("error", Val.str "No songs found for genre blue")] ∧
    ¬ ((analyzeQuery storeBlue "first Blue song").analysisType = "general") := by
  refine ⟨rfl, rfl, ?_⟩
  rw [show (analyzeQuery storeBlue "first Blue song").analysisType = "first_song" from rfl]
  decide

/-- Membership is preserved by ascending insertion. -/
theorem mem_insertNatAsc (x n : Nat) (l : List Nat) :
    x ∈ insertNatAsc n l ↔ x = n ∨ x ∈ l := by
  induction l with
  | nil => simp [insertNatAsc]
  | cons m ms ih =>
    unfold insertNatAsc
    split
    · simp [List.mem_cons]
    · simp only [List.mem_cons, ih]
      tauto

/-- Membership is preserved by the ascending sort. -/
theorem mem_sortNatAsc (x : Nat) (l : List Nat) : x ∈ sortNatAsc l ↔ x ∈ l := by
  induction l with
  | nil => simp [sortNatAsc]
  | cons n ns ih =>
    unfold sortNatAsc at ih ⊢
    simp only [List.foldr_cons, mem_insertNatAsc, ih, List.mem_cons]

/-- Membership characterisation of the dedup fold. -/
theorem mem_dedupFirst_aux [DecidableEq α] (l : List α) :
    ∀ (acc : List α) (x : α),
      x ∈ l.foldl (fun acc x => if x ∈ acc then acc else acc ++ [x]) acc ↔
        x ∈ acc ∨ x ∈ l := by
  induction l with
  | nil => simp
  | cons a as ih =>
    intro acc x
    simp only [List.foldl_cons]
    by_cases ha : a ∈ acc
    · rw [if_pos ha, ih]
      constructor
      · rintro (h | h)
        · exact Or.inl h
        · exact Or.inr (List.mem_cons_of_mem a h)
      · rintro (h | h)
        · exact Or.inl h
        · rcases List.mem_cons.mp h with rfl | h
          · exact Or.inl ha
          · exact Or.inr h
    · rw [if_neg ha, ih]
      simp only [List.mem_append, List.mem_singleton, List.mem_cons]
      tauto

/-- Membership is preserved by first-occurrence dedup. -/
theorem mem_dedupFirst [DecidableEq α] (x : α) (l : List α) :
    x ∈ dedupFirst l ↔ x ∈ l := by
  unfold dedupFirst
  rw [mem_dedupFirst_aux]
  simp

/-- A found element satisfies the predicate and belongs to the list. -/
theorem find?_eq_some_imp {p : α → Bool} :
    ∀ {l : List α} {a : α}, l.find? p = some a → p a = true ∧ a ∈ l := by
  intro l
  induction l with
  | nil => intro a h; simp [List.find?] at h
  | cons b bs ih =>
    intro a h
    rw [List.find?] at h
    cases hpb : p b with
    | true =>
      rw [hpb] at h
      injection h with h
      subst h
      exact ⟨hpb, List.mem_cons_self _ _⟩
    | false =>
      rw [hpb] at h
      rcases ih h with ⟨ha, hm⟩
      exact ⟨ha, List.mem_cons_of_mem _ hm⟩

/-- C4: a query containing a four-digit year from the store's year set and
no month name and no day-of-month is scoped to exactly the events whose
derived year equals that year, under the period label "Year [year]". -/
theorem claim_C4 (store : List Event) (q : String) (y : Nat)
    (h1 : detectYear q store = some y)
    (h2 : detectMonth (pyLower q) = none)
    (h3 : detectDay q = none) :
    substrB (toString y) q = true ∧
    y ∈ store.map Event.year ∧
    (filterByTime q store).2 = "Year " ++ toString y ∧
    (∀ e, e ∈ (filterByTime q store).1 ↔ e ∈ store ∧ e.year = y) := by
  have h1' : List.find? (fun yy => substrB (toString yy) q)
      (sortNatAsc (dedupFirst (store.map Event.year))) = some y := h1
  rcases find?_eq_some_imp h1' with ⟨hp, hm⟩
  refine ⟨hp, ?_, ?_, ?_⟩
  · exact (mem_dedupFirst _ _).mp ((mem_sortNatAsc _ _).mp hm)
  · simp only [filterByTime, h1, h2]
  · intro e
    simp only [filterByTime, h1, h2, List.mem_filter, beq_iff_eq]

/-- C4 (witness): the year claim evaluated at "my 2021 wrapped" over a store
holding years 2021 and 2022. -/
theorem claim_C4_witness :
    detectYear "my 2021 wrapped" storeYears = some 2021 ∧
    detectMonth (pyLower "my 2021 wrapped") = none ∧
    detectDay "my 2021 wrapped" = none ∧
    (substrB (toString 2021) "my 2021 wrapped" = true ∧
      2021 ∈ storeYears.map Event.year ∧
      (filterByTime "my 2021 wrapped" storeYears).2 = "Year " ++ toString 2021 ∧
      (∀ e, e ∈ (filterByTime "my 2021 wrapped" storeYears).1 ↔
        e ∈ storeYears ∧ e.year = 2021)) :=
  ⟨rfl, rfl, rfl, claim_C4 storeYears "my 2021 wrapped" 2021 rfl rfl rfl⟩

/-- Non-empty lists are not `isEmpty`. -/
theorem not_isEmpty {l : List α} (h : l ≠ []) : ¬(l.isEmpty = true) := by
  cases l with
  | nil => exact absurd rfl h
  | cons a as => simp

/-- Membership is preserved by the descending insertion. -/
theorem mem_insertDesc (p q : String × Nat) (l : List (String × Nat)) :
    q ∈ insertDesc p l ↔ q = p ∨ q ∈ l := by
  induction l with
  | nil => simp [insertDesc]
  | cons x xs ih =>
    unfold insertDesc
    split
    · simp [List.mem_cons]
    · simp only [List.mem_cons, ih]
      tauto

/-- Membership is preserved by the descending sort. -/
theorem mem_sortCountDesc (q : String × Nat) (l : List (String × Nat)) :
    q ∈ sortCountDesc l ↔ q ∈ l := by
  induction l with
  | nil => simp [sortCountDesc]
  | cons x xs ih =>
    unfold sortCountDesc at ih ⊢
    simp only [List.foldr_cons, mem_insertDesc, ih, List.mem_cons]

/-- Inserting into a list whose head count dominates keeps the head count
dominating. -/
theorem head_max_insertDesc (d p : String × Nat) (l : List (String × Nat))
    (h : ∀ q ∈ l, q.2 ≤ (l.headD d).2) :
    ∀ q ∈ insertDesc p l, q.2 ≤ ((insertDesc p l).headD d).2 := by
  cases l with
  | nil =>
    intro q hq
    simp only [insertDesc, List.mem_singleton] at hq
    subst hq
    simp [insertDesc]
  | cons x xs =>
    intro q hq
    unfold insertDesc at hq ⊢
    by_cases hc : x.2 ≤ p.2
    · rw [if_pos hc] at hq ⊢
      simp only [List.headD_cons]
      rcases List.mem_cons.mp hq with rfl | hq'
      · exact Nat.le_refl _
      · exact Nat.le_trans (h q hq') hc
    · rw [if_neg hc] at hq ⊢
      simp only [List.headD_cons]
      rcases List.mem_cons.mp hq with rfl | hq'
      · exact Nat.le_refl _
      · rcases (mem_insertDesc p q xs).mp hq' with rfl | hq''
        · exact Nat.le_of_lt (Nat.lt_of_not_le hc)
        · exact h q (List.mem_cons_of_mem x hq'')

/-- The head of the descending sort dominates every count in it. -/
theorem head_max_sortCountDesc (d : String × Nat) (l : List (String × Nat)) :
    ∀ q ∈ sortCountDesc l, q.2 ≤ ((sortCountDesc l).headD d).2 := by
  induction l with
  | nil => intro q hq; simp [sortCountDesc] at hq
  | cons x xs ih =>
    unfold sortCountDesc at ih ⊢
    rw [List.foldr_cons]
    exact head_max_insertDesc d x _ ih

/-- Every key of the store column appears in its `value_counts` paired with
its frequency. -/
theorem valueCounts_complete (l : List String) (x : String) (hx : x ∈ l) :
    (x, l.count x) ∈ valueCounts l := by
  unfold valueCounts
  rw [mem_sortCountDesc]
  exact List.mem_map_of_mem _ ((mem_dedupFirst x l).mpr hx)

/-- Every `value_counts` pair is a key of the column with its frequency. -/
theorem valueCounts_sound (l : List String) (pr : String × Nat)
    (hpr : pr ∈ valueCounts l) : pr.1 ∈ l ∧ pr.2 = l.count pr.1 := by
  unfold valueCounts at hpr
  rw [mem_sortCountDesc] at hpr
  rcases List.mem_map.mp hpr with ⟨k, hk, hpr'⟩
  subst hpr'
  exact ⟨(mem_dedupFirst k l).mp hk, rfl⟩

/-- The frequency of any key is at most the top-ranked count of the
`value_counts` ranking. -/
theorem count_le_head (l : List String) (x : String) (hx : x ∈ l) :
    l.count x ≤ ((valueCounts l).headD ("", 0)).2 :=
  head_max_sortCountDesc ("", 0) _ (x, l.count x) (valueCounts_complete l x hx)

/-- Every pair of a `take` of the ranking is still bounded by the top
count. -/
theorem take_le_head (l : List String) (n : Nat) (pr : String × Nat)
    (hpr : pr ∈ (valueCounts l).take n) : pr.2 ≤ ((valueCounts l).headD ("", 0)).2 :=
  head_max_sortCountDesc ("", 0) _ pr ((List.take_sublist n _).subset hpr)

/-- C8: in each frequency ranking the top-ranked key's count bounds every
other key's count: for the single-favorite artist/song payloads the ranked
count dominates the frequency of every value in the scoped column; for the
favorite-genre payload the `track_count` dominates every genre frequency;
and in the top-N rankings of the general fallback and the artist-songs
payload every listed count is at most the first (top-ranked) one. -/
theorem claim_C8 (view : List Event) (p q : String) (hne : view ≠ []) :
    ((getFavoriteArtist view p).data.lookup "top_artists" =
      some (Val.obj [(((valueCounts (view.map Event.artist)).headD ("", 0)).1,
        Val.nat ((valueCounts (view.map Event.artist)).headD ("", 0)).2)]) ∧
      ∀ x ∈ view.map Event.artist,
        (view.map Event.artist).count x ≤
          ((valueCounts (view.map Event.artist)).headD ("", 0)).2) ∧
    ((getFavoriteSong view p).data.lookup "top_songs" =
      some (Val.obj [(((valueCounts (view.map Event.track)).headD ("", 0)).1,
        Val.nat ((valueCounts (view.map Event.track)).headD ("", 0)).2)]) ∧
      ∀ x ∈ view.map Event.track,
        (view.map Event.track).count x ≤
          ((valueCounts (view.map Event.track)).headD ("", 0)).2) ∧
    (allGenres view ≠ [] →
      (getFavoriteGenre view p).data.lookup "track_count" =
        some (Val.nat ((valueCounts (allGenres view)).headD ("", 0)).2) ∧
      ∀ x ∈ allGenres view,
        (allGenres view).count x ≤ ((valueCounts (allGenres view)).headD ("", 0)).2) ∧
    ((generalStats q view p).data.lookup "top_songs" =
      some (Val.obj (countsObj ((valueCounts (view.map Event.track)).take 10))) ∧
      ∀ pr ∈ (valueCounts (view.map Event.track)).take 10,
        pr.2 ≤ ((valueCounts (view.map Event.track)).headD ("", 0)).2) ∧
    ((generalStats q view p).data.lookup "top_artists" =
      some (Val.obj (countsObj ((valueCounts (view.map Event.artist)).take 10))) ∧
      ∀ pr ∈ (valueCounts (view.map Event.artist)).take 10,
        pr.2 ≤ ((valueCounts (view.map Event.artist)).headD ("", 0)).2) ∧
    (∀ name, artistRows view name ≠ [] →
      (getArtistSongs view p name).data.lookup "top_songs" =
        some (Val.obj (countsObj
          ((valueCounts ((artistRows view name).map Event.track)).take 10))) ∧
      ∀ pr ∈ (valueCounts ((artistRows view name).map Event.track)).take 10,
        pr.2 ≤ ((valueCounts ((artistRows view name).map Event.track)).headD ("", 0)).2) := by
  refine ⟨⟨?_, fun x hx => count_le_head _ x hx⟩, ⟨?_, fun x hx => count_le_head _ x hx⟩,
    ?_, ⟨rfl, fun pr hpr => take_le_head _ 10 pr hpr⟩,
    ⟨rfl, fun pr hpr => take_le_head _ 10 pr hpr⟩, ?_⟩
  · unfold getFavoriteArtist
    rw [if_neg (not_isEmpty hne)]
    rfl
  · unfold getFavoriteSong
    rw [if_neg (not_isEmpty hne)]
    rfl
  · intro hg
    refine ⟨?_, fun x hx => count_le_head _ x hx⟩
    unfold getFavoriteGenre
    rw [if_neg (not_isEmpty hne), if_neg (not_isEmpty hg)]
    rfl
  · intro name hrows
    refine ⟨?_, fun pr hpr => take_le_head _ 10 pr hpr⟩
    unfold getArtistSongs
    rw [if_neg (not_isEmpty hrows)]
    rfl

/-- C8 (witness): the ranking bound evaluated on a three-event store. -/
theorem claim_C8_witness :
    storeMulti ≠ [] ∧
    ((getFavoriteArtist storeMulti "All time").data.lookup "top_artists" =
      some (Val.obj [(((valueCounts (storeMulti.map Event.artist)).headD ("", 0)).1,
        Val.nat ((valueCounts (storeMulti.map Event.artist)).headD ("", 0)).2)]) ∧
      ∀ x ∈ storeMulti.map Event.artist,
        (storeMulti.map Event.artist).count x ≤
          ((valueCounts (storeMulti.map Event.artist)).headD ("", 0)).2) ∧
    ((valueCounts (storeMulti.map Event.artist)).headD ("", 0)).2 = 2 :=
  ⟨by decide, ((claim_C8 storeMulti "All time" "q" (by decide)).1), rfl⟩

/-- The head of a non-empty list (with default) is a member. -/
theorem headD_mem {l : List α} (d : α) (h : l ≠ []) : l.headD d ∈ l := by
  cases l with
  | nil => exact absurd rfl h
  | cons a as => exact List.mem_cons_self a as

/-- A non-empty column has a non-empty ranking. -/
theorem valueCounts_ne_nil {l : List String} (h : l ≠ []) : valueCounts l ≠ [] := by
  cases l with
  | nil => exact absurd rfl h
  | cons x xs =>
    exact List.ne_nil_of_mem (valueCounts_complete (x :: xs) x (List.mem_cons_self x xs))

/-- Under the store invariant of the repository's genre enrichment — the
`genres` field is either the whole-field marker "Unknown" or a comma join
that contains no "Unknown" label (`data_builder.py` line 166) — "Unknown"
never enters the pooled genre list. -/
theorem unknown_not_mem_allGenres (view : List Event)
    (h : ∀ e ∈ view, e.genres = "Unknown" ∨
      "Unknown" ∉ (splitComma e.genres).map pyStrip) :
    "Unknown" ∉ allGenres view := by
  induction view with
  | nil => simp [allGenres]
  | cons e es ih =>
    have he := h e (List.mem_cons_self e es)
    have hes := ih (fun x hx => h x (List.mem_cons_of_mem e hx))
    unfold allGenres at hes ⊢
    rw [List.foldr_cons]
    intro hmem
    rcases List.mem_append.mp hmem with h1 | h2
    · by_cases hc : (e.genres ≠ "" && e.genres ≠ "Unknown") = true
      · rw [if_pos hc] at h1
        rcases he with hu | hnu
        · rw [hu] at hc
          simp at hc
        · exact hnu h1
      · rw [if_neg hc] at h1
        simp at h1
    · exact hes h2

/-- The lookup shape of the genre entry of a multi-favorite payload. -/
theorem lookup_top_genre_multi (view : List Event) (p : String) (req : List String)
    (hv : view.isEmpty = false) :
    (getMultipleFavorites view p req).data.lookup "top_genre" =
      (if "genre" ∈ req ∧ ¬((allGenres view).isEmpty = true) then
        some (Val.obj [("name", Val.str ((valueCounts (allGenres view)).headD ("", 0)).1),
          ("tracks", Val.nat ((valueCounts (allGenres view)).headD ("", 0)).2)])
      else none) := by
  unfold getMultipleFavorites
  rw [if_neg (by simp [hv])]
  by_cases hs : "song" ∈ req <;> by_cases ha : "artist" ∈ req <;>
    by_cases hg : "genre" ∈ req <;> by_cases hag : (allGenres view).isEmpty = true <;>
    simp [hs, ha, hg, hag, List.lookup]

/-- C6: genre aggregations never count the marker "Unknown": under the
store invariant of the genre enrichment, no ranked genre entry of
`_extract_top_genres`, of the favorite-genre payload (`top_genre` and every
key of `top_genres`), or of the multi-favorite genre sub-payload carries the
key "Unknown", and an event whose genre field is empty or "Unknown"
contributes nothing to the pooled genre list. -/
theorem claim_C6 (view : List Event)
    (h : ∀ e ∈ view, e.genres = "Unknown" ∨
      "Unknown" ∉ (splitComma e.genres).map pyStrip) :
    (∀ limit pr, pr ∈ extractTopGenres view limit → pr.1 ≠ "Unknown") ∧
    (∀ p s, (getFavoriteGenre view p).data.lookup "top_genre" = some (Val.str s) →
      s ≠ "Unknown") ∧
    (∀ p l pr, (getFavoriteGenre view p).data.lookup "top_genres" = some (Val.obj l) →
      pr ∈ l → pr.1 ≠ "Unknown") ∧
    (∀ p req s c, (getMultipleFavorites view p req).data.lookup "top_genre" =
      some (Val.obj [("name", Val.str s), ("tracks", Val.nat c)]) → s ≠ "Unknown") ∧
    (∀ e ∈ view, (e.genres = "" ∨ e.genres = "Unknown") →
      (if e.genres ≠ "" && e.genres ≠ "Unknown" then (splitComma e.genres).map pyStrip
       else []) = []) := by
  have hun := unknown_not_mem_allGenres view h
  refine ⟨?_, ?_, ?_, ?_, ?_⟩
  · intro limit pr hpr
    unfold extractTopGenres at hpr
    by_cases hv : view.isEmpty = true
    · rw [if_pos hv] at hpr
      simp at hpr
    · rw [if_neg hv] at hpr
      by_cases hag : (allGenres view).isEmpty = true
      · rw [if_pos hag] at hpr
        simp at hpr
      · rw [if_neg hag] at hpr
        intro hk
        apply hun
        rw [← hk]
        exact (valueCounts_sound _ pr ((List.take_sublist _ _).subset hpr)).1
  · intro p s hyp
    by_cases hv : view.isEmpty = true
    · have hnone : (getFavoriteGenre view p).data.lookup "top_genre" = none := by
        unfold getFavoriteGenre
        rw [if_pos hv]
        rfl
      rw [hnone] at hyp
      cases hyp
    · by_cases hag : (allGenres view).isEmpty = true
      · have hnone : (getFavoriteGenre view p).data.lookup "top_genre" = none := by
          unfold getFavoriteGenre
          rw [if_neg hv, if_pos hag]
          rfl
        rw [hnone] at hyp
        cases hyp
      · have hsome : (getFavoriteGenre view p).data.lookup "top_genre" =
            some (Val.str ((valueCounts (allGenres view)).headD ("", 0)).1) := by
          unfold getFavoriteGenre
          rw [if_neg hv, if_neg hag]
          rfl
        rw [hsome] at hyp
        have hag' : allGenres view ≠ [] := by
          intro hh
          rw [hh] at hag
          exact hag rfl
        have hhead := headD_mem ("", 0) (valueCounts_ne_nil hag')
        have hk := (valueCounts_sound _ _ hhead).1
        injection hyp with hyp
        injection hyp with hyp
        intro hs
        rw [hyp, hs] at hk
        exact hun hk
  · intro p l pr hyp hmem
    by_cases hv : view.isEmpty = true
    · have hnone : (getFavoriteGenre view p).data.lookup "top_genres" = none := by
        unfold getFavoriteGenre
        rw [if_pos hv]
        rfl
      rw [hnone] at hyp
      cases hyp
    · by_cases hag : (allGenres view).isEmpty = true
      · have hnone : (getFavoriteGenre view p).data.lookup "top_genres" = none := by
          unfold getFavoriteGenre
          rw [if_neg hv, if_pos hag]
          rfl
        rw [hnone] at hyp
        cases hyp
      · have hsome : (getFavoriteGenre view p).data.lookup "top_genres" =
            some (Val.obj (countsObj ((valueCounts (allGenres view)).take 5))) := by
          unfold getFavoriteGenre
          rw [if_neg hv, if_neg hag]
          rfl
        rw [hsome] at hyp
        injection hyp with hyp
        injection hyp with hyp
        subst hyp
        rcases List.mem_map.mp hmem with ⟨p0, hp0, hpr0⟩
        subst hpr0
        intro hk
        apply hun
        rw [← hk]
        exact (valueCounts_sound _ p0 ((List.take_sublist _ _).subset hp0)).1
  · intro p req s c hyp
    by_cases hv : view.isEmpty = true
    · have hnone : (getMultipleFavorites view p req).data.lookup "top_genre" = none := by
        unfold getMultipleFavorites
        rw [if_pos hv]
        rfl
      rw [hnone] at hyp
      cases hyp
    · rw [lookup_top_genre_multi view p req (by simp at hv; simp [hv])] at hyp
      by_cases hcond : "genre" ∈ req ∧ ¬((allGenres view).isEmpty = true)
      · rw [if_pos hcond] at hyp
        have hag' : allGenres view ≠ [] := by
          intro hh
          exact hcond.2 (by rw [hh]; rfl)
        have hhead := headD_mem ("", 0) (valueCounts_ne_nil hag')
        have hk := (valueCounts_sound _ _ hhead).1
        injection hyp with hyp
        simp only [Val.obj.injEq, List.cons.injEq, Prod.mk.injEq, Val.str.injEq] at hyp
        intro hs
        rw [hyp.1.2, hs] at hk
        exact hun hk
      · rw [if_neg hcond] at hyp
        cases hyp
  · intro e _ hcase
    rcases hcase with hc | hc <;> rw [hc] <;> simp

/-- C6 (witness): the genre-exclusion claim on a store with one
"Unknown"-marked row; the pooled genre list drops that row entirely. -/
theorem claim_C6_witness :
    (∀ e ∈ storeGenres, e.genres = "Unknown" ∨
      "Unknown" ∉ (splitComma e.genres).map pyStrip) ∧
    ((∀ limit pr, pr ∈ extractTopGenres storeGenres limit → pr.1 ≠ "Unknown") ∧
      (∀ p s, (getFavoriteGenre storeGenres p).data.lookup "top_genre" =
        some (Val.str s) → s ≠ "Unknown") ∧
      (∀ p l pr, (getFavoriteGenre storeGenres p).data.lookup "top_genres" =
        some (Val.obj l) → pr ∈ l → pr.1 ≠ "Unknown") ∧
      (∀ p req s c, (getMultipleFavorites storeGenres p req).data.lookup "top_genre" =
        some (Val.obj [("name", Val.str s), ("tracks", Val.nat c)]) → s ≠ "Unknown") ∧
      (∀ e ∈ storeGenres, (e.genres = "" ∨ e.genres = "Unknown") →
        (if e.genres ≠ "" && e.genres ≠ "Unknown" then (splitComma e.genres).map pyStrip
         else []) = [])) :=
  ⟨by decide, claim_C6 storeGenres (by decide)⟩

/-- C5: a multi-favorite request over a non-empty scoped view yields a
payload whose keys are exactly the signalled subset of
top_song/top_artist/top_genre — the genre entry being omitted, not an
error, when there is no genre data — and each sub-result carries the same
top entity and count as the corresponding single-favorite aggregator run on
the same view. -/
theorem claim_C5 (view : List Event) (p : String) (ws wa wg : Bool) (req : List String)
    (hne : view ≠ []) (hreq : requestedSubset ws wa wg = some req) :
    ((getMultipleFavorites view p req).data.map Prod.fst =
      (if ws = true then ["top_song"] else []) ++
        (if wa = true then ["top_artist"] else []) ++
        (if wg = true ∧ allGenres view ≠ [] then ["top_genre"] else [])) ∧
    (ws = true → ∃ s a c,
      (getMultipleFavorites view p req).data.lookup "top_song" =
        some (Val.obj [("name", Val.str s), ("artist", Val.str a), ("plays", Val.nat c)]) ∧
      (getFavoriteSong view p).data =
        [("top_songs", Val.obj [(s, Val.nat c)]), ("artist", Val.str a),
          ("period", Val.str p)]) ∧
    (wa = true → ∃ a c,
      (getMultipleFavorites view p req).data.lookup "top_artist" =
        some (Val.obj [("name", Val.str a), ("plays", Val.nat c)]) ∧
      (getFavoriteArtist view p).data =
        [("top_artists", Val.obj [(a, Val.nat c)]), ("period", Val.str p)]) ∧
    (wg = true → allGenres view ≠ [] → ∃ g c,
      (getMultipleFavorites view p req).data.lookup "top_genre" =
        some (Val.obj [("name", Val.str g), ("tracks", Val.nat c)]) ∧
      (getFavoriteGenre view p).data.lookup "top_genre" = some (Val.str g) ∧
      (getFavoriteGenre view p).data.lookup "track_count" = some (Val.nat c)) ∧
    (wg = true → allGenres view = [] →
      (getMultipleFavorites view p req).data.lookup "top_genre" = none) := by
  have hvf := not_isEmpty hne
  cases ws <;> cases wa <;> cases wg
  case false.false.false => exact Option.noConfusion hreq
  case false.false.true => exact Option.noConfusion hreq
  case false.true.false => exact Option.noConfusion hreq
  case true.false.false => exact Option.noConfusion hreq
  case true.true.true =>
    have hr := Option.some.inj hreq
    subst hr
    refine ⟨?_, ?_, ?_, ?_, ?_⟩
    · simp only [getMultipleFavorites]
      rw [if_neg hvf]
      by_cases hag : allGenres view = []
      · rw [hag]
        simp
      · rw [if_neg (not_isEmpty hag)]
        simp [hag]
    · intro _
      refine ⟨((valueCounts (view.map Event.track)).headD ("", 0)).1,
        ((view.filter (fun e =>
          e.track == ((valueCounts (view.map Event.track)).headD ("", 0)).1)).headD
            default).artist,
        ((valueCounts (view.map Event.track)).headD ("", 0)).2, ?_, ?_⟩
      · simp only [getMultipleFavorites]
        rw [if_neg hvf]
        rfl
      · simp only [getFavoriteSong]
        rw [if_neg hvf]
    · intro _
      refine ⟨((valueCounts (view.map Event.artist)).headD ("", 0)).1,
        ((valueCounts (view.map Event.artist)).headD ("", 0)).2, ?_, ?_⟩
      · simp only [getMultipleFavorites]
        rw [if_neg hvf]
        rfl
      · simp only [getFavoriteArtist]
        rw [if_neg hvf]
    · intro _ hag
      refine ⟨((valueCounts (allGenres view)).headD ("", 0)).1,
        ((valueCounts (allGenres view)).headD ("", 0)).2, ?_, ?_, ?_⟩
      · simp only [getMultipleFavorites]
        rw [if_neg hvf, if_neg (not_isEmpty hag)]
        rfl
      · simp only [getFavoriteGenre]
        rw [if_neg hvf, if_neg (not_isEmpty hag)]
        rfl
      · simp only [getFavoriteGenre]
        rw [if_neg hvf, if_neg (not_isEmpty hag)]
        rfl
    · intro _ hag
      simp only [getMultipleFavorites]
      rw [if_neg hvf, hag]
      rfl
  case true.true.false =>
    have hr := Option.some.inj hreq
    subst hr
    refine ⟨?_, ?_, ?_, fun h => Bool.noConfusion h, fun h => Bool.noConfusion h⟩
    · simp only [getMultipleFavorites]
      rw [if_neg hvf]
      simp
    · intro _
      refine ⟨((valueCounts (view.map Event.track)).headD ("", 0)).1,
        ((view.filter (fun e =>
          e.track == ((valueCounts (view.map Event.track)).headD ("", 0)).1)).headD
            default).artist,
        ((valueCounts (view.map Event.track)).headD ("", 0)).2, ?_, ?_⟩
      · simp only [getMultipleFavorites]
        rw [if_neg hvf]
        rfl
      · simp only [getFavoriteSong]
        rw [if_neg hvf]
    · intro _
      refine ⟨((valueCounts (view.map Event.artist)).headD ("", 0)).1,
        ((valueCounts (view.map Event.artist)).headD ("", 0)).2, ?_, ?_⟩
      · simp only [getMultipleFavorites]
        rw [if_neg hvf]
        rfl
      · simp only [getFavoriteArtist]
        rw [if_neg hvf]
  case true.false.true =>
    have hr := Option.some.inj hreq
    subst hr
    refine ⟨?_, ?_, fun h => Bool.noConfusion h, ?_, ?_⟩
    · simp only [getMultipleFavorites]
      rw [if_neg hvf]
      by_cases hag : allGenres view = []
      · rw [hag]
        simp
      · rw [if_neg (not_isEmpty hag)]
        simp [hag]
    · intro _
      refine ⟨((valueCounts (view.map Event.track)).headD ("", 0)).1,
        ((view.filter (fun e =>
          e.track == ((valueCounts (view.map Event.track)).headD ("", 0)).1)).headD
            default).artist,
        ((valueCounts (view.map Event.track)).headD ("", 0)).2, ?_, ?_⟩
      · simp only [getMultipleFavorites]
        rw [if_neg hvf]
        rfl
      · simp only [getFavoriteSong]
        rw [if_neg hvf]
    · intro _ hag
      refine ⟨((valueCounts (allGenres view)).headD ("", 0)).1,
        ((valueCounts (allGenres view)).headD ("", 0)).2, ?_, ?_, ?_⟩
      · simp only [getMultipleFavorites]
        rw [if_neg hvf, if_neg (not_isEmpty hag)]
        rfl
      · simp only [getFavoriteGenre]
        rw [if_neg hvf, if_neg (not_isEmpty hag)]
        rfl
      · simp only [getFavoriteGenre]
        rw [if_neg hvf, if_neg (not_isEmpty hag)]
        rfl
    · intro _ hag
      simp only [getMultipleFavorites]
      rw [if_neg hvf, hag]
      rfl
  case false.true.true =>
    have hr := Option.some.inj hreq
    subst hr
    refine ⟨?_, fun h => Bool.noConfusion h, ?_, ?_, ?_⟩
    · simp only [getMultipleFavorites]
      rw [if_neg hvf]
      by_cases hag : allGenres view = []
      · rw [hag]
        simp
      · rw [if_neg (not_isEmpty hag)]
        simp [hag]
    · intro _
      refine ⟨((valueCounts (view.map Event.artist)).headD ("", 0)).1,
        ((valueCounts (view.map Event.artist)).headD ("", 0)).2, ?_, ?_⟩
      · simp only [getMultipleFavorites]
        rw [if_neg hvf]
        rfl
      · simp only [getFavoriteArtist]
        rw [if_neg hvf]
    · intro _ hag
      refine ⟨((valueCounts (allGenres view)).headD ("", 0)).1,
        ((valueCounts (allGenres view)).headD ("", 0)).2, ?_, ?_, ?_⟩
      · simp only [getMultipleFavorites]
        rw [if_neg hvf, if_neg (not_isEmpty hag)]
        rfl
      · simp only [getFavoriteGenre]
        rw [if_neg hvf, if_neg (not_isEmpty hag)]
        rfl
      · simp only [getFavoriteGenre]
        rw [if_neg hvf, if_neg (not_isEmpty hag)]
        rfl
    · intro _ hag
      simp only [getMultipleFavorites]
      rw [if_neg hvf, hag]
      rfl

/-- C5 (witness): a full three-signal request over a three-event store
produces exactly the three signalled keys. -/
theorem claim_C5_witness :
    storeMulti ≠ [] ∧
    requestedSubset true true true = some ["song", "artist", "genre"] ∧
    (getMultipleFavorites storeMulti "All time" ["song", "artist", "genre"]).data.map
      Prod.fst = ["top_song", "top_artist", "top_genre"] :=
  ⟨by decide, rfl, by
    rw [(claim_C5 storeMulti "All time" true true true ["song", "artist", "genre"]
      (by decide) rfl).1]
    decide⟩

/-- C10: when the direct case-insensitive substring filter on the artist
column is non-empty, the artist-scoped aggregations all consume exactly
that filter — so events of every artist whose name contains the candidate
are aggregated together — and the payload's `artist` field is the artist of
the first matching row in store order, while first/last results come from
the min/max-timestamp row of the same filter. -/
theorem claim_C10 (view : List Event) (p name : String)
    (h : view.filter (fun e => containsCI e.artist name) ≠ []) :
    artistRows view name = view.filter (fun e => containsCI e.artist name) ∧
    (getArtistSongs view p name).data.lookup "artist" =
      some (Val.str ((view.filter (fun e => containsCI e.artist name)).headD
        default).artist) ∧
    (getArtistSongs view p name).data.lookup "total_plays" =
      some (Val.nat (view.filter (fun e => containsCI e.artist name)).length) ∧
    (getFirstSongByArtist view p name).data.lookup "artist" =
      some (Val.str ((view.filter (fun e => containsCI e.artist name)).headD
        default).artist) ∧
    (getFirstSongByArtist view p name).data.lookup "song" =
      some (Val.str ((argminTs (view.filter (fun e => containsCI e.artist name))).getD
        default).track) ∧
    (getLastSongByArtist view p name).data.lookup "artist" =
      some (Val.str ((view.filter (fun e => containsCI e.artist name)).headD
        default).artist) ∧
    (getLastSongByArtist view p name).data.lookup "song" =
      some (Val.str ((argmaxTs (view.filter (fun e => containsCI e.artist name))).getD
        default).track) := by
  have har : artistRows view name = view.filter (fun e => containsCI e.artist name) := by
    unfold artistRows
    rw [if_neg (not_isEmpty h)]
  refine ⟨har, ?_, ?_, ?_, ?_, ?_, ?_⟩ <;>
    first
      | (simp only [getArtistSongs, har]
         rw [if_neg (not_isEmpty h)]
         rfl)
      | (simp only [getFirstSongByArtist, har]
         rw [if_neg (not_isEmpty h)]
         rfl)
      | (simp only [getLastSongByArtist, har]
         rw [if_neg (not_isEmpty h)]
         rfl)

/-- C10 (witness): the candidate "drake" aggregates the events of both
"Drake" and "Drake Bell", and the reported artist is the first matching
row's. -/
theorem claim_C10_witness :
    storeDrake.filter (fun e => containsCI e.artist "drake") ≠ [] ∧
    (getArtistSongs storeDrake "All time" "drake").data.lookup "total_plays" =
      some (Val.nat 3) ∧
    (getArtistSongs storeDrake "All time" "drake").data.lookup "artist" =
      some (Val.str "Drake") :=
  ⟨by decide,
    (claim_C10 storeDrake "All time" "drake" (by decide)).2.2.1,
    (claim_C10 storeDrake "All time" "drake" (by decide)).2.1⟩

/-- C2 (amended): for a "first X song" query whose candidate resolves to no
artist — resolution being the pandas-regex search in which a generated
variation such as "J. cole" carries a wildcard dot — and whose time words
do not name a non-constructible calendar date (on which line 318's
`pd.Timestamp` would raise and the program would produce no envelope), the
classifier does not fall through to the general fallback: the genre
first-song family dispatches without validating the candidate, and when no
stored genre string contains it the result is a `first_song` envelope
whose payload is exactly the error "No songs found for genre X". -/
theorem claim_C2_amended (store : List Event) (q c : String)
    (h0 : timestampOk q store = true)
    (h1 : sbaSearch q = none)
    (h2 : detectArtistSong store (pyLower q) = none)
    (h3 : dispatchFirstArtist store (filterByTime q store).1 (filterByTime q store).2
      (pyLower q) = none)
    (h4 : firstGenreCand (pyLower q) = some c)
    (h5 : (filterByTime q store).1.filter (fun e => containsCI e.genres c) = []) :
    analyzeQuery store q =
      ⟨"first " ++ c ++ " song", "first_song",
        [("error", Val.str ("No songs found for genre " ++ c))],
        some (filterByTime q store).2⟩ := by
  simp only [analyzeQuery, h1, h2, h3, h4]
  simp only [getFirstSongByGenre, h5, List.isEmpty_nil, if_true]

/-- C2 (witness): the amended claim evaluated on the Blue store. -/
theorem claim_C2_witness :
    timestampOk "first Blue song" storeBlue = true ∧
    sbaSearch "first Blue song" = none ∧
    detectArtistSong storeBlue (pyLower "first Blue song") = none ∧
    dispatchFirstArtist storeBlue (filterByTime "first Blue song" storeBlue).1
      (filterByTime "first Blue song" storeBlue).2 (pyLower "first Blue song") = none ∧
    firstGenreCand (pyLower "first Blue song") = some "blue" ∧
    (filterByTime "first Blue song" storeBlue).1.filter
      (fun e => containsCI e.genres "blue") = [] ∧
    analyzeQuery storeBlue "first Blue song" =
      ⟨"first blue song", "first_song",
        [("error", Val.str "No songs found for genre blue")], some "All time"⟩ :=
  ⟨rfl, rfl, rfl, rfl, rfl, rfl,
    claim_C2_amended storeBlue "first Blue song" "blue" rfl rfl rfl rfl rfl rfl⟩

/-- C3 (amended): on an empty store, a query that matches no earlier pattern
family (no song-by-artist form, no first/last-song form, none of the
song/artist/genre signals, no daily-listening phrase) and carries no
"recent"/"lately" time word produces the general envelope whose payload is
exactly the error "No data found for All time". -/
theorem claim_C3_amended (q : String)
    (h1 : sbaSearch q = none)
    (h2 : firstGenreCand (pyLower q) = none)
    (h3 : lastGenreCand (pyLower q) = none)
    (h4 : wantsSong (pyLower q) = false)
    (h5 : wantsArtist (pyLower q) = false)
    (h6 : wantsGenre (pyLower q) = false)
    (h7 : dailyTrigger (pyLower q) = false)
    (h8 : substrB "recent" (pyLower q) = false)
    (h9 : substrB "lately" (pyLower q) = false) :
    analyzeQuery [] q =
      ⟨q, "general", [("error", Val.str "No data found for All time")], some "All time"⟩ := by
  have hy : detectYear q [] = none := rfl
  have hft : filterByTime q [] = ([], "All time") := by
    simp only [filterByTime, hy, h8, h9, Bool.or_self, if_neg, Bool.false_eq_true,
      not_false_eq_true]
  simp only [analyzeQuery, h1, hft, detectArtistSong_empty, dispatchFirstArtist_empty, h2,
    dispatchLastArtist_empty, h3, h4, h5, h6, h7, requestedSubset, Bool.false_and,
    Bool.and_false, if_false, Bool.false_eq_true, List.isEmpty_nil, if_true]
  rfl

/-- C3 (witness): the amended claim evaluated at the query "hello" over the
empty store. -/
theorem claim_C3_witness :
    sbaSearch "hello" = none ∧
    firstGenreCand (pyLower "hello") = none ∧
    lastGenreCand (pyLower "hello") = none ∧
    wantsSong (pyLower "hello") = false ∧
    wantsArtist (pyLower "hello") = false ∧
    wantsGenre (pyLower "hello") = false ∧
    dailyTrigger (pyLower "hello") = false ∧
    substrB "recent" (pyLower "hello") = false ∧
    substrB "lately" (pyLower "hello") = false ∧
    analyzeQuery [] "hello" =
      ⟨"hello", "general", [("error", Val.str "No data found for All time")],
        some "All time"⟩ :=
  ⟨rfl, rfl, rfl, rfl, rfl, rfl, rfl, rfl, rfl,
    claim_C3_amended "hello" rfl rfl rfl rfl rfl rfl rfl rfl rfl⟩

/-- C3 (counterexample): on an empty store the query "favorite song" is
classified as a single-favorite request, so the envelope's `analysis_type`
is `favorite_song`, not `general` as the claim states for every query. -/
theorem claim_C3_counterexample :
    (analyzeQuery [] "favorite song").analysisType = "favorite_song" ∧
    (analyzeQuery [] "favorite song").data =
      [("error", Val.str "No data found for All time")] ∧
    ¬ ((analyzeQuery [] "favorite song").analysisType = "general") := by
  refine ⟨rfl, rfl, ?_⟩
  rw [show (analyzeQuery [] "favorite song").analysisType = "favorite_song" from rfl]
  decide

end SDQ
